import Mathlib

/-!
Verification of the MicroTools backend (server.js) against its
natural-language specification.  The definitions below are a shallow
embedding of the request handlers in server.js; each is translated from
the source, with `Option` modelling JavaScript absent/`undefined` values
and `NaN`, and oracles modelling the outcomes of the opaque external
collaborators (sharp, ffmpeg, Ghostscript, LibreOffice, the archiver).
-/

namespace MicroTools

/-! ## JavaScript numeric parsing (server.js:76-79)

`parseInt(s, 10)` skips leading whitespace, accepts an optional sign, and
reads the longest prefix of decimal digits; if there is none the result is
`NaN`, modelled here as `none`. -/

def isJsSpace (c : Char) : Bool :=
  c == ' ' || c == '\t' || c == '\n' || c == '\r'

def digitsPrefixVal (cs : List Char) : Option Nat :=
  let ds := cs.takeWhile (fun c => c.isDigit)
  if ds.isEmpty then none
  else some (ds.foldl (fun acc c => 10 * acc + (c.toNat - 48)) 0)

def jsParseInt (s : String) : Option Int :=
  match s.data.dropWhile isJsSpace with
  | '-' :: rest => (digitsPrefixVal rest).map (fun n => -(n : Int))
  | '+' :: rest => (digitsPrefixVal rest).map (fun n => (n : Int))
  | cs => (digitsPrefixVal cs).map (fun n => (n : Int))

/-! ## Image-compress quality clamping (server.js:76-79)

`const quality = Math.max(10, Math.min(100, parseInt(req.body.quality || "80", 10)))`.
`req.body.quality || "80"` substitutes `"80"` only for an absent or empty
(falsy) field.  `Math.min`/`Math.max` propagate `NaN`, so a failed parse
yields `NaN` (`none`), not the default. -/

def jsOr80 (q : Option String) : String :=
  match q with
  | none => "80"
  | some s => if s = "" then "80" else s

def qualityOf (q : Option String) : Option Int :=
  (jsParseInt (jsOr80 q)).map (fun n => max 10 (min 100 n))

/-! ## Ghostscript PDF compression (server.js:167-231)

`compressPdfWithGhostscript(inputPath, outputPath, level = "medium")`
maps the level through `settingMap` with `/ebook` as fallback and builds
the gs argument list.  The handler (server.js:196-231) reads
`req.body.level` into a local variable but the call at server.js:209 is
`compressPdfWithGhostscript(inputPath, outputPath)` - the level argument
is omitted, so the default parameter of the callee `"medium"` always applies. -/

def settingMap (level : String) : Option String :=
  if level = "low" then some "/screen"
  else if level = "medium" then some "/ebook"
  else if level = "high" then some "/printer"
  else none

def pdfSettingOf (level : String) : String :=
  (settingMap level).getD "/ebook"

def gsArgs (inputPath outputPath level : String) : List String :=
  [ "-sDEVICE=pdfwrite"
  , "-dCompatibilityLevel=1.4"
  , "-dPDFSETTINGS=" ++ pdfSettingOf level
  , "-dNOPAUSE"
  , "-dQUIET"
  , "-dBATCH"
  , "-sOutputFile=" ++ outputPath
  , inputPath ]

def handlerLevelOf (reqLevel : Option String) : String :=
  match reqLevel with
  | none => "medium"
  | some s => if s = "" then "medium" else s

def pdfCompressHandlerGsArgs (reqLevel : Option String)
    (inputPath outputPath : String) : List String :=
  let _level := handlerLevelOf reqLevel
  gsArgs inputPath outputPath "medium"

/-! ## Temp-file effect traces

Each handler run is modelled as a trace of the temp files it creates and
the `safeUnlink` calls it issues, in program order.  `TmpFile.upload i`
is the file multer wrote for the i-th uploaded part; `TmpFile.toolOutput`
is the output path handed to the external tool.  External tools are
opaque: a failed invocation may or may not have created its output file
(server.js:224-228 itself unlinks `outputPath` in the pdf-compress catch,
so the code treats a partial output on failure as a possible outcome),
hence `ToolResult.fail` carries that bit. -/

inductive TmpFile where
  | upload (i : Nat)
  | toolOutput
  deriving DecidableEq, Repr

inductive ToolResult where
  | ok
  | fail (producedOutput : Bool)
  deriving DecidableEq, Repr

inductive Tool where
  | sharp
  | ffmpeg
  | soffice
  deriving DecidableEq, Repr

structure ConvertTrace where
  created : List TmpFile
  released : List TmpFile
  toolInvoked : Option Tool
  status : Nat
  errorBody : Option String
  deriving DecidableEq, Repr

/-! ## /api/file-convert (server.js:264-353)

Route classification over the three extension whitelists at
server.js:281-283, in the order the source tests them.  In the
audio/video and document branches the success path unlinks input and
output from the stream close handler (server.js:314-317, 335-338), while
the catch block at server.js:347-351 unlinks only `inputPath`. -/

def imageTypes : List String := ["jpg", "jpeg", "png", "webp"]
def avTypes : List String := ["mp4", "mp3", "wav"]
def docTypes : List String :=
  ["doc", "docx", "ppt", "pptx", "xls", "xlsx", "odt", "odp", "ods", "txt"]

def fileConvertExec (ext target : String)
    (sharpR ffmpegR sofficeR : ToolResult) : ConvertTrace :=
  let inp := TmpFile.upload 0
  if imageTypes.contains ext && imageTypes.contains target then
    -- image -> image: sharp works in-process on a buffer, no output temp file
    match sharpR with
    | .ok =>
        { created := [inp], released := [inp], toolInvoked := some .sharp
        , status := 200, errorBody := none }
    | .fail _ =>
        { created := [inp], released := [inp], toolInvoked := some .sharp
        , status := 500, errorBody := some "File conversion failed" }
  else if avTypes.contains ext && avTypes.contains target then
    match ffmpegR with
    | .ok =>
        { created := [inp, .toolOutput], released := [inp, .toolOutput]
        , toolInvoked := some .ffmpeg, status := 200, errorBody := none }
    | .fail produced =>
        { created := [inp] ++ (if produced then [TmpFile.toolOutput] else [])
        , released := [inp]  -- catch at server.js:349 unlinks only inputPath
        , toolInvoked := some .ffmpeg, status := 500
        , errorBody := some "File conversion failed" }
  else if target = "pdf" && docTypes.contains ext then
    match sofficeR with
    | .ok =>
        { created := [inp, .toolOutput], released := [inp, .toolOutput]
        , toolInvoked := some .soffice, status := 200, errorBody := none }
    | .fail produced =>
        { created := [inp] ++ (if produced then [TmpFile.toolOutput] else [])
        , released := [inp]
        , toolInvoked := some .soffice, status := 500
        , errorBody := some "File conversion failed" }
  else
    -- unsupported combo (server.js:342-346)
    { created := [inp], released := [inp], toolInvoked := none
    , status := 400
    , errorBody :=
        some ("Conversion from ." ++ ext ++ " to ." ++ target
              ++ " is not supported yet.") }

/-! ## /api/pdf-compress temp-file trace (server.js:196-231)

Success: the close handler of the output stream unlinks both files.  Failure:
the catch block unlinks both paths. -/

structure PdfTrace where
  created : List TmpFile
  released : List TmpFile
  status : Nat
  deriving DecidableEq, Repr

def pdfCompressExec (gsR : ToolResult) : PdfTrace :=
  match gsR with
  | .ok =>
      { created := [.upload 0, .toolOutput]
      , released := [.upload 0, .toolOutput], status := 200 }
  | .fail produced =>
      { created := [TmpFile.upload 0]
                   ++ (if produced then [TmpFile.toolOutput] else [])
      , released := [.upload 0, .toolOutput], status := 500 }

/-! ## /api/image-compress archive construction (server.js:71-132)

Per uploaded file: a supported extension is recompressed with sharp and
the result appended to the archive as an in-memory buffer; a sharp
failure or an unsupported extension instead registers the temp file path
with `archive.file` - archiver reads such an entry lazily, when the
entry is processed, not at registration.  The `finally` issues
`safeUnlink(file.path)` immediately after registration, so whether the
archiver still finds the file is a race; `deletedBeforeRead` is the
interleaving oracle.  `finalizeArchive` returns `none` when the archiver
hits a missing file, which fires its error handler and aborts the
response (server.js:92-95). -/

structure ImgFile where
  base : String
  ext : String
  sharpOk : Bool
  deriving DecidableEq, Repr

def supportedImgExts : List String := [".jpg", ".jpeg", ".png", ".webp"]

def targetFormatOf (ext : String) : String :=
  if ext = ".jpg" || ext = ".jpeg" then "jpeg" else ext.drop 1

def compressedNameOf (f : ImgFile) : String :=
  let fmt := targetFormatOf f.ext
  f.base ++ "-compressed." ++ (if fmt = "jpeg" then "jpg" else fmt)

inductive Entry where
  | buffer (name : String)
  | lazyFile (f : TmpFile) (name : String)
  deriving DecidableEq, Repr

def imageCompressEntry (i : Nat) (f : ImgFile) : Entry :=
  if supportedImgExts.contains f.ext then
    if f.sharpOk then Entry.buffer (compressedNameOf f)
    else Entry.lazyFile (.upload i) (f.base ++ f.ext)
  else
    Entry.lazyFile (.upload i) (f.base ++ f.ext)

def imageCompressEntries (files : List ImgFile) : List Entry :=
  (files.enum).map (fun p => imageCompressEntry p.1 p.2)

/-- The `finally` of every iteration unlinks the temp path of that file. -/
def imageCompressUnlinks (files : List ImgFile) : List TmpFile :=
  (files.enum).map (fun p => TmpFile.upload p.1)

def finalizeArchive (entries : List Entry)
    (deletedBeforeRead : TmpFile → Bool) : Option (List String) :=
  entries.mapM (fun e =>
    match e with
    | .buffer n => some n
    | .lazyFile f n => if deletedBeforeRead f then none else some n)

/-! ## SHA-256 and HMAC-SHA256 (the `crypto` collaborator, server.js:408-411)

Bytes are `Nat` values below 256; 32-bit words are `Nat` values reduced
mod 2^32 wherever overflow matters.  This is FIPS 180-4 SHA-256 and
RFC 2104 HMAC, the functions `crypto.createHmac("sha256", secret)
.update(body).digest("hex")` delegates to. -/

def w32 (x : Nat) : Nat := x % 4294967296

def rotr32 (n x : Nat) : Nat :=
  w32 (Nat.lor (x >>> n) ((x % (2 ^ n)) <<< (32 - n)))

def sSigma0 (x : Nat) : Nat :=
  Nat.xor (Nat.xor (rotr32 7 x) (rotr32 18 x)) (x >>> 3)

def sSigma1 (x : Nat) : Nat :=
  Nat.xor (Nat.xor (rotr32 17 x) (rotr32 19 x)) (x >>> 10)

def bSigma0 (x : Nat) : Nat :=
  Nat.xor (Nat.xor (rotr32 2 x) (rotr32 13 x)) (rotr32 22 x)

def bSigma1 (x : Nat) : Nat :=
  Nat.xor (Nat.xor (rotr32 6 x) (rotr32 11 x)) (rotr32 25 x)

def chWord (x y z : Nat) : Nat :=
  Nat.xor (Nat.land x y) (Nat.land (w32 (Nat.xor x 4294967295)) z)

def majWord (x y z : Nat) : Nat :=
  Nat.xor (Nat.xor (Nat.land x y) (Nat.land x z)) (Nat.land y z)

/-- The 64 SHA-256 round constants of FIPS 180-4 (fractional parts of the
cube roots of the first 64 primes), written in decimal. -/
def sha256K : List Nat :=
  [ 1116352408, 1899447441, 3049323471, 3921009573
  , 961987163, 1508970993, 2453635748, 2870763221
  , 3624381080, 310598401, 607225278, 1426881987
  , 1925078388, 2162078206, 2614888103, 3248222580
  , 3835390401, 4022224774, 264347078, 604807628
  , 770255983, 1249150122, 1555081692, 1996064986
  , 2554220882, 2821834349, 2952996808, 3210313671
  , 3336571891, 3584528711, 113926993, 338241895
  , 666307205, 773529912, 1294757372, 1396182291
  , 1695183700, 1986661051, 2177026350, 2456956037
  , 2730485921, 2820302411, 3259730800, 3345764771
  , 3516065817, 3600352804, 4094571909, 275423344
  , 430227734, 506948616, 659060556, 883997877
  , 958139571, 1322822218, 1537002063, 1747873779
  , 1955562222, 2024104815, 2227730452, 2361852424
  , 2428436474, 2756734187, 3204031479, 3329325298 ]

/-- The initial SHA-256 hash state of FIPS 180-4, in decimal. -/
def sha256H0 : List Nat :=
  [ 1779033703, 3144134277, 1013904242, 2773480762
  , 1359893119, 2600822924, 528734635, 1541459225 ]

/-- Big-endian byte decomposition, most significant first. -/
def natToBytesBE (count value : Nat) : List Nat :=
  (List.range count).map (fun i => (value >>> (8 * (count - 1 - i))) % 256)

def bytesToWordsBE : List Nat → List Nat
  | b0 :: b1 :: b2 :: b3 :: rest =>
      (b0 <<< 24 + b1 <<< 16 + b2 <<< 8 + b3) :: bytesToWordsBE rest
  | _ => []

def padMessage (msg : List Nat) : List Nat :=
  let zeros := (64 - ((msg.length + 9) % 64)) % 64
  msg ++ [0x80] ++ List.replicate zeros 0 ++ natToBytesBE 8 (msg.length * 8)

def chunksOf64 : Nat → List Nat → List (List Nat)
  | 0, _ => []
  | _, [] => []
  | fuel + 1, xs => xs.take 64 :: chunksOf64 fuel (xs.drop 64)

/-- Message-schedule extension: `acc` holds the words produced so far in
reverse order, so `acc.getD 1 0` is w[i-2], `acc.getD 6 0` is w[i-7],
`acc.getD 14 0` is w[i-15] and `acc.getD 15 0` is w[i-16]. -/
def extendSchedule : Nat → List Nat → List Nat
  | 0, acc => acc.reverse
  | n + 1, acc =>
      extendSchedule n
        (w32 (sSigma1 (acc.getD 1 0) + acc.getD 6 0
              + sSigma0 (acc.getD 14 0) + acc.getD 15 0) :: acc)

structure Sha256State where
  a : Nat
  b : Nat
  c : Nat
  d : Nat
  e : Nat
  f : Nat
  g : Nat
  h : Nat
  deriving DecidableEq, Repr

def stateOfList (l : List Nat) : Sha256State :=
  { a := l.getD 0 0, b := l.getD 1 0, c := l.getD 2 0, d := l.getD 3 0
  , e := l.getD 4 0, f := l.getD 5 0, g := l.getD 6 0, h := l.getD 7 0 }

def sha256Round (st : Sha256State) (kw : Nat × Nat) : Sha256State :=
  let t1 := w32 (st.h + bSigma1 st.e + chWord st.e st.f st.g + kw.1 + kw.2)
  let t2 := w32 (bSigma0 st.a + majWord st.a st.b st.c)
  { a := w32 (t1 + t2), b := st.a, c := st.b, d := st.c
  , e := w32 (st.d + t1), f := st.e, g := st.f, h := st.g }

def compressBlock (hs : List Nat) (block : List Nat) : List Nat :=
  let w := extendSchedule 48 (bytesToWordsBE block).reverse
  let st := (sha256K.zip w).foldl sha256Round (stateOfList hs)
  [ w32 (hs.getD 0 0 + st.a), w32 (hs.getD 1 0 + st.b)
  , w32 (hs.getD 2 0 + st.c), w32 (hs.getD 3 0 + st.d)
  , w32 (hs.getD 4 0 + st.e), w32 (hs.getD 5 0 + st.f)
  , w32 (hs.getD 6 0 + st.g), w32 (hs.getD 7 0 + st.h) ]

def sha256 (msg : List Nat) : List Nat :=
  let padded := padMessage msg
  let blocks := chunksOf64 (padded.length + 1) padded
  (blocks.foldl compressBlock sha256H0).flatMap (natToBytesBE 4)

def hmacSha256 (key msg : List Nat) : List Nat :=
  let key1 := if 64 < key.length then sha256 key else key
  let key2 := key1 ++ List.replicate (64 - key1.length) 0
  let ipadKey := key2.map (fun b => Nat.xor b 0x36)
  let opadKey := key2.map (fun b => Nat.xor b 0x5c)
  sha256 (opadKey ++ sha256 (ipadKey ++ msg))

def hexCharOf (n : Nat) : Char :=
  if n < 10 then Char.ofNat (48 + n) else Char.ofNat (87 + n)

/-- Lowercase hex rendering, as `digest("hex")` produces. -/
def hexOfBytes (bs : List Nat) : String :=
  String.mk (bs.flatMap (fun b => [hexCharOf (b / 16), hexCharOf (b % 16)]))

/-- ASCII strings encode one byte per character under UTF-8, which is the
only case exercised by Razorpay ids and hex signatures. -/
def strBytes (s : String) : List Nat := s.data.map Char.toNat

def hmacSha256Hex (secret msg : String) : String :=
  hexOfBytes (hmacSha256 (strBytes secret) (strBytes msg))

/-! ## /api/verify-payment (server.js:389-422)

Request fields and the `RAZORPAY_KEY_SECRET` environment variable are
`Option String` (`none` = absent/undefined); JavaScript truthiness on a
string rejects both absence and the empty string.  The handler result
records the response body and whether the HMAC was computed. -/

def jsTruthyStr (s : Option String) : Bool :=
  match s with
  | none => false
  | some t => !(t = "")

structure VerifyResult where
  verified : Bool
  hmacComputed : Bool
  deriving DecidableEq, Repr

def verifyPaymentHandler (secret oid pid sig : Option String) : VerifyResult :=
  if !(jsTruthyStr oid) || !(jsTruthyStr pid) || !(jsTruthyStr sig)
      || !(jsTruthyStr secret) then
    { verified := false, hmacComputed := false }
  else
    let body := oid.getD "" ++ "|" ++ pid.getD ""
    let expectedSignature := hmacSha256Hex (secret.getD "") body
    { verified := expectedSignature = sig.getD "", hmacComputed := true }

/-! ## /api/create-order (server.js:356-386)

`razorpay` is `null` unless both key id and key secret are configured,
modelled by the `configured` flag.  The request amount is the result of
`Number(req.body.amount || 0)` modelled as an exact rational (`none` =
NaN).  `!amount` is true for 0 and NaN.  A successful call forwards
`amount * 100` (paise) to the gateway. -/

structure OrderResult where
  success : Bool
  error : Option String
  forwardedAmount : Option ℚ
  gatewayCalled : Bool
  deriving DecidableEq, Repr

def createOrderHandler (configured : Bool) (amount : Option ℚ) : OrderResult :=
  if !configured then
    { success := false, error := some "Razorpay not configured"
    , forwardedAmount := none, gatewayCalled := false }
  else
    match amount with
    | none =>  -- NaN: `!amount` is true
        { success := false, error := some "Invalid amount"
        , forwardedAmount := none, gatewayCalled := false }
    | some a =>
        if a ≤ 0 then  -- `!amount || amount <= 0`
          { success := false, error := some "Invalid amount"
          , forwardedAmount := none, gatewayCalled := false }
        else
          { success := true, error := none
          , forwardedAmount := some (a * 100), gatewayCalled := true }

/-! ## /api/youtube link extraction (server.js:27, 37-47) -/

structure Format where
  qualityLabel : String
  hasVideo : Bool
  url : String
  deriving DecidableEq, Repr

def QUALITY_MAP : List String := ["144p", "240p", "360p", "480p", "720p", "1080p"]

def extractLinks (formats : List Format) : List (String × Option String) :=
  QUALITY_MAP.map (fun q =>
    (q, (formats.find? (fun f => f.qualityLabel == q && f.hasVideo)).map
          (fun f => f.url)))

/-! # Theorems -/

/-- Helper: `List.contains` agrees with membership. -/
theorem contains_true_iff (l : List String) (a : String) :
    l.contains a = true ↔ a ∈ l := by
  simp [List.contains, List.elem_iff]

/-- Claim C3 evaluation: `compressPdfWithGhostscript` itself maps
low/medium/high to /screen, /ebook, /printer with /ebook as fallback,
but the handler omits the level argument from the call at server.js:209,
so the Ghostscript invocation for a request with level "low" (and any
other level) carries `-dPDFSETTINGS=/ebook`, not `/screen`. -/
theorem C3_pdf_level_ignored :
    pdfSettingOf "low" = "/screen"
    ∧ pdfSettingOf "medium" = "/ebook"
    ∧ pdfSettingOf "high" = "/printer"
    ∧ pdfSettingOf "weird" = "/ebook"
    ∧ (∀ reqLevel inputPath outputPath,
        pdfCompressHandlerGsArgs reqLevel inputPath outputPath
          = gsArgs inputPath outputPath "medium")
    ∧ "-dPDFSETTINGS=/ebook"
        ∈ pdfCompressHandlerGsArgs (some "low") "in.pdf" "out.pdf"
    ∧ "-dPDFSETTINGS=/screen"
        ∉ pdfCompressHandlerGsArgs (some "low") "in.pdf" "out.pdf" := by
  refine ⟨rfl, rfl, rfl, rfl, fun _ _ _ => rfl, by decide, by decide⟩

/-- Claim C2 counterexample: the quality field "abc" is non-numeric and
nonempty, so `req.body.quality || "80"` does not substitute the default;
`parseInt` yields NaN and `Math.max(10, Math.min(100, NaN))` is NaN
(modelled `none`), which is neither the default 80 nor a value in
[10, 100]. -/
theorem C2_counterexample :
    qualityOf (some "abc") = none ∧ qualityOf (some "abc") ≠ some 80 := by
  refine ⟨rfl, by decide⟩

/-- Claim C2 (amended): an absent or empty quality field defaults to 80;
a field whose `parseInt` succeeds is clamped into [10, 100]; a nonempty
field whose `parseInt` fails yields NaN (`none`), not the default 80. -/
theorem C2_quality_clamped :
    qualityOf none = some 80
    ∧ qualityOf (some "") = some 80
    ∧ (∀ s n, s ≠ "" → jsParseInt s = some n →
        qualityOf (some s) = some (max 10 (min 100 n))
        ∧ 10 ≤ max 10 (min 100 n) ∧ max 10 (min 100 n) ≤ 100)
    ∧ (∀ s, s ≠ "" → jsParseInt s = none → qualityOf (some s) = none) := by
  refine ⟨rfl, rfl, ?_, ?_⟩
  · intro s n hs hp
    refine ⟨?_, le_max_left _ _, max_le (by norm_num) (min_le_left _ _)⟩
    simp [qualityOf, jsOr80, hs, hp]
  · intro s hs hp
    simp [qualityOf, jsOr80, hs, hp]

/-- Claim C2 amended witness at the concrete input "5": parse succeeds
with 5 and the codec receives the clamped value 10. -/
theorem C2_quality_clamped_witness :
    ("5" : String) ≠ "" ∧ jsParseInt "5" = some 5
    ∧ qualityOf (some "5") = some (max 10 (min 100 5)) :=
  ⟨by decide, by decide,
   (C2_quality_clamped.2.2.1 "5" 5 (by decide) (by decide)).1⟩

/-- Claim C1 evaluation at the failing input: a /api/file-convert request
with source extension mp4 and target mp3 in which ffmpeg fails after
creating its (partial) output file.  The catch block at server.js:347-351
unlinks only the input path, so the created output temp file is never
released and survives the request. -/
theorem C1_file_convert_leak :
    TmpFile.toolOutput
      ∈ (fileConvertExec "mp4" "mp3" .ok (.fail true) .ok).created
    ∧ TmpFile.toolOutput
      ∉ (fileConvertExec "mp4" "mp3" .ok (.fail true) .ok).released
    ∧ (fileConvertExec "mp4" "mp3" .ok (.fail true) .ok).status = 500 := by
  refine ⟨by decide, by decide, rfl⟩

/-- By contrast the pdf-compress handler releases every file it creates
on both the success and the failure path (its catch unlinks both paths),
which is the pattern the file-convert catch block misses. -/
theorem pdfCompress_cleanup (gsR : ToolResult) :
    ∀ f ∈ (pdfCompressExec gsR).created, f ∈ (pdfCompressExec gsR).released := by
  cases gsR with
  | ok => decide
  | fail produced => cases produced <;> decide

/-- Claim C5: any (source extension, target extension) pair that is not
image-to-image, audio/video-to-audio/video, or document-family-to-pdf is
rejected with status 400 and an error naming the pair; no external tool
is invoked, no output file is created, and the uploaded temp file is
released. -/
theorem C5_unsupported_pair_rejected (ext target : String)
    (sharpR ffmpegR sofficeR : ToolResult)
    (h1 : ¬(ext ∈ imageTypes ∧ target ∈ imageTypes))
    (h2 : ¬(ext ∈ avTypes ∧ target ∈ avTypes))
    (h3 : ¬(target = "pdf" ∧ ext ∈ docTypes)) :
    fileConvertExec ext target sharpR ffmpegR sofficeR =
      { created := [TmpFile.upload 0], released := [TmpFile.upload 0]
      , toolInvoked := none, status := 400
      , errorBody := some ("Conversion from ." ++ ext ++ " to ." ++ target
                           ++ " is not supported yet.") } := by
  have c1 : ¬((imageTypes.contains ext && imageTypes.contains target) = true) := by
    simp only [Bool.and_eq_true, contains_true_iff]
    exact h1
  have c2 : ¬((avTypes.contains ext && avTypes.contains target) = true) := by
    simp only [Bool.and_eq_true, contains_true_iff]
    exact h2
  have c3 : ¬((decide (target = "pdf") && docTypes.contains ext) = true) := by
    simp only [Bool.and_eq_true, contains_true_iff, decide_eq_true_eq]
    exact h3
  unfold fileConvertExec
  rw [if_neg c1, if_neg c2, if_neg c3]

/-- Claim C5 witness: the pair (exe, pdf) from the claim. -/
theorem C5_unsupported_pair_rejected_witness :
    ¬(("exe" : String) ∈ imageTypes ∧ ("pdf" : String) ∈ imageTypes)
    ∧ ¬(("exe" : String) ∈ avTypes ∧ ("pdf" : String) ∈ avTypes)
    ∧ ¬(("pdf" : String) = "pdf" ∧ ("exe" : String) ∈ docTypes)
    ∧ fileConvertExec "exe" "pdf" .ok .ok .ok =
      { created := [TmpFile.upload 0], released := [TmpFile.upload 0]
      , toolInvoked := none, status := 400
      , errorBody := some ("Conversion from ." ++ "exe" ++ " to ."
                           ++ "pdf" ++ " is not supported yet.") } := by
  refine ⟨by decide, by decide, by decide, ?_⟩
  exact C5_unsupported_pair_rejected "exe" "pdf" .ok .ok .ok
    (by decide) (by decide) (by decide)

/-- Claim C7 evaluation at the failing input: a batch of two images,
a.png unprocessable and b.jpg valid.  The handler registers the corrupt
file with `archive.file` (read lazily at processing time) and its
`finally` immediately issues the unlink, so the unlink is in flight
before the archiver opens the path; in the interleaving where the
deletion lands first (the one the issue order makes typical), the
archiver hits a missing file, its error handler fires and the response
is aborted instead of containing the two claimed entries. -/
theorem C7_archive_fallback_aborts :
    imageCompressEntries [⟨"a", ".png", false⟩, ⟨"b", ".jpg", true⟩]
      = [Entry.lazyFile (.upload 0) "a.png", Entry.buffer "b-compressed.jpg"]
    ∧ imageCompressUnlinks [⟨"a", ".png", false⟩, ⟨"b", ".jpg", true⟩]
      = [TmpFile.upload 0, TmpFile.upload 1]
    ∧ finalizeArchive
        (imageCompressEntries [⟨"a", ".png", false⟩, ⟨"b", ".jpg", true⟩])
        (fun _ => true) = none := by
  refine ⟨rfl, rfl, rfl⟩

/-- Claim C4: with the secret configured and all three fields present
(truthy), the response verifies exactly when the lowercase hex
HMAC-SHA256 of `order_id ++ "|" ++ payment_id` under the secret equals
the supplied signature as a string; the comparison is exact string
equality, so any deviation (case, whitespace) yields verified:false, and
the handler is a total function (it never throws). -/
theorem C4_verify_signature_iff (secret oid pid sig : String)
    (hs : secret ≠ "") (ho : oid ≠ "") (hp : pid ≠ "") (hg : sig ≠ "") :
    ((verifyPaymentHandler (some secret) (some oid) (some pid) (some sig)).verified
        = true
      ↔ hmacSha256Hex secret (oid ++ "|" ++ pid) = sig)
    ∧ (verifyPaymentHandler (some secret) (some oid) (some pid)
        (some sig)).hmacComputed = true := by
  have t1 : jsTruthyStr (some oid) = true := by simp [jsTruthyStr, ho]
  have t2 : jsTruthyStr (some pid) = true := by simp [jsTruthyStr, hp]
  have t3 : jsTruthyStr (some sig) = true := by simp [jsTruthyStr, hg]
  have t4 : jsTruthyStr (some secret) = true := by simp [jsTruthyStr, hs]
  unfold verifyPaymentHandler
  rw [t1, t2, t3, t4]
  simp

/-- Claim C4 witness at concrete field values. -/
theorem C4_verify_signature_iff_witness :
    ("s" : String) ≠ "" ∧ ("o1" : String) ≠ "" ∧ ("p1" : String) ≠ ""
    ∧ ("x" : String) ≠ ""
    ∧ ((verifyPaymentHandler (some "s") (some "o1") (some "p1")
          (some "x")).verified = true
        ↔ hmacSha256Hex "s" ("o1" ++ "|" ++ "p1") = "x") :=
  ⟨by decide, by decide, by decide, by decide,
   (C4_verify_signature_iff "s" "o1" "p1" "x"
     (by decide) (by decide) (by decide) (by decide)).1⟩

set_option maxRecDepth 100000 in
/-- Concrete evaluation of the verification pipeline: the genuine digest
of "o1|p1" under secret "s" verifies, and the same digest uppercased is
rejected (the comparison is case-sensitive exact string equality). -/
theorem verifyPayment_eval_examples :
    (verifyPaymentHandler (some "s") (some "o1") (some "p1")
      (some "a23a35a9cc17304682813499f610ed21e20e5e98e04bc2fbe9a198a68b058546")).verified
      = true
    ∧ (verifyPaymentHandler (some "s") (some "o1") (some "p1")
      (some "A23A35A9CC17304682813499F610ED21E20E5E98E04BC2FBE9A198A68B058546")).verified
      = false := by
  exact ⟨rfl, rfl⟩

/-- Claim C10: if any of the three request fields is absent or the
payment secret is not configured, the handler answers verified:false
without computing an HMAC. -/
theorem C10_verify_missing_guard (secret oid pid sig : Option String)
    (h : oid = none ∨ pid = none ∨ sig = none ∨ secret = none) :
    verifyPaymentHandler secret oid pid sig
      = { verified := false, hmacComputed := false } := by
  rcases h with h | h | h | h <;> subst h <;>
    simp [verifyPaymentHandler, jsTruthyStr]

/-- Claim C10 witness: order id absent, the rest present. -/
theorem C10_verify_missing_guard_witness :
    ((none : Option String) = none ∨ (some "p" : Option String) = none
      ∨ (some "x" : Option String) = none ∨ (some "s" : Option String) = none)
    ∧ verifyPaymentHandler (some "s") none (some "p") (some "x")
        = { verified := false, hmacComputed := false } :=
  ⟨Or.inl rfl,
   C10_verify_missing_guard (some "s") none (some "p") (some "x") (Or.inl rfl)⟩

/-- Claim C8: with no payment credentials configured the create-order
handler returns success:false with exactly the error "Razorpay not
configured", for every request amount, and never calls the gateway. -/
theorem C8_not_configured (amount : Option ℚ) :
    createOrderHandler false amount =
      { success := false, error := some "Razorpay not configured"
      , forwardedAmount := none, gatewayCalled := false } := rfl

/-- Claim C6: with credentials configured and a positive amount, the
amount forwarded to the gateway is the supplied amount times 100, i.e.
the supplied (major-unit) amount expressed in minor currency units
(paise), and the gateway is called. -/
theorem C6_amount_minor_units (a : ℚ) (ha : 0 < a) :
    (createOrderHandler true (some a)).forwardedAmount = some (a * 100)
    ∧ (createOrderHandler true (some a)).gatewayCalled = true := by
  have h0 : ¬(a ≤ 0) := not_le.mpr ha
  simp [createOrderHandler, h0]

/-- Claim C6 witness: amount 5 forwards 500. -/
theorem C6_amount_minor_units_witness :
    (0 : ℚ) < 5
    ∧ (createOrderHandler true (some 5)).forwardedAmount = some 500 := by
  refine ⟨by norm_num, ?_⟩
  have h := (C6_amount_minor_units 5 (by norm_num)).1
  rw [h]
  norm_num

/-- Claim C9: a successful youtube response carries exactly the six
ladder keys 144p-1080p in that order; a key maps to some url exactly
when the format list contains a format with that quality label and
video, and the url is the one of such a (the first such) format;
otherwise the key maps to null. -/
theorem C9_quality_ladder (formats : List Format) :
    ((extractLinks formats).map Prod.fst = QUALITY_MAP)
    ∧ (∀ q u, (q, some u) ∈ extractLinks formats →
        ∃ f, f ∈ formats ∧ f.qualityLabel = q ∧ f.hasVideo = true ∧ f.url = u)
    ∧ (∀ q, (q, (none : Option String)) ∈ extractLinks formats →
        ∀ f, f ∈ formats → ¬(f.qualityLabel = q ∧ f.hasVideo = true)) := by
  refine ⟨?_, ?_, ?_⟩
  · rfl
  · intro q u hmem
    simp only [extractLinks, List.mem_map] at hmem
    obtain ⟨q0, -, heq⟩ := hmem
    rw [Prod.mk.injEq] at heq
    obtain ⟨hq, hv⟩ := heq
    rw [hq] at hv
    obtain ⟨f, hfind, hurl⟩ := Option.map_eq_some'.mp hv
    have hpf := List.find?_some hfind
    rw [Bool.and_eq_true, beq_iff_eq] at hpf
    exact ⟨f, List.mem_of_find?_eq_some hfind, hpf.1, hpf.2, hurl⟩
  · intro q hmem f hf hcon
    simp only [extractLinks, List.mem_map] at hmem
    obtain ⟨q0, -, heq⟩ := hmem
    rw [Prod.mk.injEq] at heq
    obtain ⟨hq, hv⟩ := heq
    rw [hq] at hv
    have hnone := Option.map_eq_none'.mp hv
    have hnp := List.find?_eq_none.mp hnone f hf
    apply hnp
    simp only [Bool.and_eq_true, beq_iff_eq]
    exact hcon

/-- Claim C9 witness: on a concrete format list, the 720p key is present
with its url and the theorem recovers the matching format. -/
theorem C9_quality_ladder_witness :
    (("720p", some "u7")
      ∈ extractLinks [⟨"144p", false, "u1"⟩, ⟨"720p", true, "u7"⟩])
    ∧ ∃ f, f ∈ [(⟨"144p", false, "u1"⟩ : Format), ⟨"720p", true, "u7"⟩]
        ∧ f.qualityLabel = "720p" ∧ f.hasVideo = true ∧ f.url = "u7" :=
  ⟨by decide,
   (C9_quality_ladder [⟨"144p", false, "u1"⟩, ⟨"720p", true, "u7"⟩]).2.1
     "720p" "u7" (by decide)⟩

end MicroTools
